import Mathlib

/-!
Verification of the mydeer authentication backend (Go) against its
natural-language specification.  The definitions below are a shallow
embedding of the repository source:

* `src/middleware/auth.go` — three revisions of the `Auth` middleware
  (a cookie-transport variant with an HMAC algorithm allow-list, and two
  header-transport variants without one);
* `src/handlers/user.go` — `LoginHandler`, `SignupHandler`, `validPassword`;
* `src/internal/errors/errors.go` — `AppError`, sentinels, `WithDetails`;
* the `WrapDBError` helper of the errors package;
* `src/middleware/error_handler.go` — rendering of an `AppError`.

The external golang-jwt/jwt (v3) library is embedded at the level the
middleware depends on: `jwt.Parse` decodes the token, calls the key
callback, verifies the signature with the returned key (a byte key can
only verify HMAC-family methods; any other method fails with a key-type
error), and then validates the registered claims, where a numeric `exp`
claim must satisfy `now <= exp` and a missing or non-numeric `exp` is
treated as valid.  Signatures are modelled abstractly: a signature value
records the method and key that produced it over the token payload.
Time is seconds since epoch as `Int`.  bcrypt comparison and the
database are external collaborators and enter as explicit parameters.
-/

deriving instance DecidableEq for Except

namespace MyDeer

/-- JSON-like values, used both for JWT claim values and for `gin.H`
response bodies.  Go decodes JWT claim numbers as `float64`; the tokens in
this flow only ever carry integral second counts, embedded as `Int`.  The
only structured values this flow ever nests inside a body are
string-to-string maps (validation details, constraint details), embedded
as the flat `strMap` case. -/
inductive Jval where
  | str (s : String)
  | num (n : Int)
  | null
  | strMap (fields : List (String × String))
  deriving DecidableEq, Repr

/-- JWT claims: the `jwt.MapClaims` map, as an association list. -/
abbrev Claims := List (String × Jval)

/-- Lookup in a claims map (Go map indexing; a missing key yields `none`,
which in Go is the `nil` interface value). -/
def claimLookup : Claims → String → Option Jval
  | [], _ => none
  | (k, v) :: rest, key => if k = key then some v else claimLookup rest key

/-- The package-level signing key `SECRET_KEY` of `middleware`. -/
def SECRET_KEY : String := "SECRET"

/-- JWT signing algorithms as declared in a token header. -/
inductive Alg where
  | HS256 | HS384 | HS512 | RS256 | ES256 | PS256 | algNone
  deriving DecidableEq, Repr

/-- Whether the method is an instance of `*jwt.SigningMethodHMAC`
(the `token.Method.(*jwt.SigningMethodHMAC)` type check). -/
def Alg.isHMAC : Alg → Bool
  | .HS256 => true
  | .HS384 => true
  | .HS512 => true
  | _ => false

/-- A decoded token: declared algorithm, claims, and the signature.  The
signature is abstract: `some (m, k)` is a structurally valid signature
produced with method `m` under key `k` over this very payload; `none` is
a signature that no method/key pair produced. -/
structure RawToken where
  alg : Alg
  claims : Claims
  sig : Option (Alg × String)
  deriving DecidableEq, Repr

/-- The wire form handed to `jwt.Parse`: `none` is a string that does not
decode as a JWT at all (this includes the empty string that
`c.GetHeader` returns when the header is absent). -/
abbrev Wire := Option RawToken

/-- Failure cases of `jwt.Parse`. -/
inductive ParseErr where
  | malformed
  | keyfuncFailed (msg : String)
  | invalidKeyType
  | sigInvalid
  | expexpired
  deriving DecidableEq, Repr

/-- The `err.Error()` string of a parse failure (only its presence and
inequality across branches matter to the claims; the exact text stands in
for the library messages). -/
def ParseErr.msg : ParseErr → String
  | .malformed => "token contains an invalid number of segments"
  | .keyfuncFailed m => m
  | .invalidKeyType => "key is of invalid type"
  | .sigInvalid => "signature is invalid"
  | .expexpired => "Token is expired"

/-- Signature verification with a byte key, as `method.Verify` behaves
when the key callback returned `[]byte`: HMAC methods check the HMAC of
the payload under the key; every non-HMAC method rejects a byte key
(RSA/ECDSA verifiers require a public-key type, and the `none` method
rejects any key other than the unsafe marker constant). -/
def verifySig (t : RawToken) (key : String) : Option ParseErr :=
  if t.alg.isHMAC then
    if t.sig = some (t.alg, key) then none else some .sigInvalid
  else
    some .invalidKeyType

/-- `jwt.MapClaims.Valid` restricted to what these tokens carry: a numeric
`exp` claim is valid iff `now <= exp` (the library compares
`cmp <= exp` on seconds); a missing or non-numeric `exp` is valid because
the claim is not required. -/
def mapClaimsValid (cs : Claims) (now : Int) : Bool :=
  match claimLookup cs "exp" with
  | some (.num e) => now ≤ e
  | _ => true

/-- `jwt.Parse(tokenString, keyfunc)` with the outcome collapsed to the
first failure: decode, obtain the key from the callback, verify the
signature, validate the claims.  The token is `Valid` iff no step
failed, which is exactly what both `Auth` variants test
(`err != nil || !token.Valid`). -/
def jwtParse (wire : Wire) (keyfunc : Alg → Except String String)
    (now : Int) : Except ParseErr RawToken :=
  match wire with
  | none => .error .malformed
  | some t =>
    match keyfunc t.alg with
    | .error m => .error (.keyfuncFailed m)
    | .ok key =>
      match verifySig t key with
      | some e => .error e
      | none =>
        if mapClaimsValid t.claims now then .ok t else .error .expexpired

/-- The key callback of the cookie-transport `Auth` variant: allow only
HMAC methods, otherwise return the `unexpected signing method` error. -/
def cookieKeyfunc (alg : Alg) : Except String String :=
  if alg.isHMAC then .ok SECRET_KEY
  else .error "unexpected signing method"

/-- The key callback of the header-transport `Auth` variants: return the
secret key for every method, never an error. -/
def headerKeyfunc (_alg : Alg) : Except String String :=
  .ok SECRET_KEY

/-- An HTTP response as written by `c.JSON(status, gin.H)`.  The body is
the `gin.H` map; `encoding/json` serialises a Go map with its keys in
sorted order, so equal association lists (kept here in that order)
serialise to byte-identical JSON. -/
structure GinResponse where
  status : Nat
  body : List (String × Jval)
  deriving DecidableEq, Repr

/-- Observable effect of one middleware run on the gin context: the
response it wrote (if any), whether it called `c.Abort()`, whether it
called `c.Next()`, and what it stored under the `claims` context key. -/
structure Outcome where
  written : Option GinResponse
  aborted : Bool
  nextCalled : Bool
  ctxClaims : Option Claims
  deriving DecidableEq, Repr

/-- A rejection: write the response, abort, never reach `c.Next()`. -/
def reject (r : GinResponse) : Outcome :=
  { written := some r, aborted := true, nextCalled := false, ctxClaims := none }

/-- The cookie-transport `Auth` middleware (the revision that reads the
`token` cookie and allow-lists HMAC).  The request is `none` when
`c.Cookie "token"` errors (no such cookie), otherwise the wire string.
After a valid parse the claims are re-read: a missing or non-numeric
`exp`, or `int64(exp) < now`, yields the `token expired` rejection;
otherwise the claims are stored and `c.Next()` runs.  (The
`invalid token claims` branch guards the `jwt.MapClaims` type assertion,
which cannot fail for tokens produced by `jwt.Parse`; it is therefore
unreachable in this embedding.) -/
def cookieAuth (now : Int) (cookie : Option Wire) : Outcome :=
  match cookie with
  | none =>
    reject ⟨401, [("error", .str "token not found in cookie")]⟩
  | some wire =>
    match jwtParse wire cookieKeyfunc now with
    | .error e =>
      reject ⟨401, [("details", .str e.msg), ("error", .str "invalid token")]⟩
    | .ok tok =>
      match claimLookup tok.claims "exp" with
      | some (.num e) =>
        if e < now then
          reject ⟨401, [("error", .str "token expired")]⟩
        else
          { written := none, aborted := false, nextCalled := true,
            ctxClaims := some tok.claims }
      | _ =>
        reject ⟨401, [("error", .str "token expired")]⟩

/-- Outcome of a header-transport `Auth` run: these variants read
`claims["exp"].(float64)` without the `ok` guard, so a request can end in
a runtime panic instead of a response. -/
inductive HOutcome where
  | panicked
  | ran (o : Outcome)
  deriving DecidableEq, Repr

/-- The plain header-transport `Auth` middleware (the revision without a
username check).  `c.GetHeader "Authorization"` returns the empty string
when absent, which fails to decode, so absence is the `none` wire.  On a
valid parse, `claims["exp"].(float64)` is an unchecked type assertion:
a missing or non-numeric `exp` claim panics. -/
def headerAuth (now : Int) (wire : Wire) : HOutcome :=
  match jwtParse wire headerKeyfunc now with
  | .error _ =>
    .ran (reject ⟨401, [("error", .str "invalid token")]⟩)
  | .ok tok =>
    match claimLookup tok.claims "exp" with
    | some (.num e) =>
      if e < now then
        .ran (reject ⟨401, [("error", .str "token expired")]⟩)
      else
        .ran { written := none, aborted := false, nextCalled := true,
               ctxClaims := none }
    | _ => .panicked

/-- The header-transport `Auth` revision that additionally compares
`claims["username"]` against `ValidUser.Username` (`"test"`).  The
interface comparison `claims["username"] != ValidUser.Username` is false
exactly when the claim is the string `"test"`; a missing claim (nil
interface) or any non-string value is unequal, hence rejected. -/
def headerAuthUser (now : Int) (wire : Wire) : HOutcome :=
  match jwtParse wire headerKeyfunc now with
  | .error _ =>
    .ran (reject ⟨401, [("error", .str "invalid token")]⟩)
  | .ok tok =>
    match claimLookup tok.claims "exp" with
    | some (.num e) =>
      if e < now then
        .ran (reject ⟨401, [("error", .str "token expired")]⟩)
      else
        if claimLookup tok.claims "username" = some (.str "test") then
          .ran { written := none, aborted := false, nextCalled := true,
                 ctxClaims := none }
        else
          .ran (reject ⟨401, [("error", .str "invalid user")]⟩)
    | _ => .panicked

/-- `internal/errors.AppError`: stable code, safe message, optional
details, transport status.  The Go struct also carries a non-exported
`err` cause with a `json:"-"` tag; it is never serialised to a client and
no claim concerns it, so it is not part of the embedded record. -/
structure AppError where
  code : String
  message : String
  details : Option Jval
  httpStatus : Nat
  deriving DecidableEq, Repr

/-- `(*AppError).WithDetails` as a value transformation: the returned
error carries the given details.  (The Go receiver is a pointer and the
assignment happens in place; that aliasing side of the semantics is
`withDetailsGo` below.) -/
def AppError.withDetails (e : AppError) (d : Jval) : AppError :=
  { e with details := some d }

/-- `errors.Wrap(err, code, message, status)` at a call site where `err`
is non-nil (every call site in this flow passes a real error; the
nil-error branch returning nil is unreachable). -/
def wrap (code : String) (message : String) (status : Nat) : AppError :=
  ⟨code, message, none, status⟩

/-- Sentinel `errors.ErrNotFound`. -/
def ErrNotFound : AppError :=
  ⟨"DB_NOT_FOUND", "Resource not found", none, 404⟩

/-- Sentinel `errors.ErrInvalidCredentials`. -/
def ErrInvalidCredentials : AppError :=
  ⟨"AUTH_INVALID", "Invalid credentials", none, 401⟩

/-- Sentinel `errors.ErrInternalServer`. -/
def ErrInternalServer : AppError :=
  ⟨"INTERNAL_ERROR", "Internal server error", none, 500⟩

/-- Sentinel `errors.ErrDuplicateEntry`. -/
def ErrDuplicateEntry : AppError :=
  ⟨"DB_DUPLICATE", "Resource already exists", none, 409⟩

/-- Sentinel `errors.ErrInvalidInput`. -/
def ErrInvalidInput : AppError :=
  ⟨"VALIDATION_ERROR", "Invalid input parameters", none, 400⟩

/-- An error value on the gin error list: either an `*AppError` or some
other error. -/
inductive GoError where
  | app (e : AppError)
  | other (msg : String)
  deriving DecidableEq, Repr

/-- `errors.FormatError`: an `AppError` passes through unchanged; any
other error is wrapped as a generic internal error. -/
def formatError : GoError → AppError
  | .app e => e
  | .other _ => ⟨"INTERNAL_ERROR", "An unexpected error occurred", none, 500⟩

/-- The response the `ErrorHandler` middleware writes for an error set
during the request: `c.JSON(appErr.HTTPStatus, gin.H)` with the three
fields `error`, `message`, `details` (keys listed in the sorted order
`encoding/json` serialises a map in; absent details serialise as
JSON null). -/
def renderAppError (e : AppError) : GinResponse :=
  ⟨e.httpStatus,
    [("details", e.details.getD .null),
     ("error", .str e.code),
     ("message", .str e.message)]⟩

/-- `ErrorHandler` rendering of the last error on the gin error list. -/
def renderGoError (e : GoError) : GinResponse :=
  renderAppError (formatError e)

/-- Go pointer semantics of `(*AppError).WithDetails`: the receiver cell
is assigned in place and the same pointer is returned, so the new cell
value and the returned value coincide.  Applied to a package-level
sentinel such as `ErrInvalidInput`, the first component is the value the
shared global holds afterwards. -/
def withDetailsGo (cell : AppError) (d : Jval) : AppError × AppError :=
  let e := { cell with details := some d }
  (e, e)

/-- The `LoginHandler` bind-failure path
`apperrors.ErrInvalidInput.WithDetails(validationErrors)` run against the
shared sentinel cell: returns the sentinel value after the call and the
error value handed to `c.Error`. -/
def loginBindFailureGo (cell : AppError) (validationErrors : Jval) :
    AppError × AppError :=
  withDetailsGo cell validationErrors

/-- PostgreSQL-level failure of a store call, as the handlers and
`WrapDBError` discriminate it. -/
inductive DBErr where
  | noRows
  | pq (code : String) (constraint : String)
  | otherDB
  deriving DecidableEq, Repr

/-- `strings.Split` on a one-character separator, over the character
list: splitting the empty string yields one empty part, and every
occurrence of the separator starts a new part. -/
def splitCharsOn (sep : Char) : List Char → List String
  | [] => [""]
  | c :: rest =>
    let r := splitCharsOn sep rest
    if c = sep then "" :: r
    else
      match r with
      | [] => [String.mk [c]]
      | h :: t => String.mk (c :: h.data) :: t

/-- `strings.Split(s, sep)` for a one-character separator string. -/
def goSplit (s : String) (sep : Char) : List String :=
  splitCharsOn sep s.toList

/-- `extractFieldFromConstraint`: split the constraint name on `_` and
return the second-to-last part, or the empty string when there are fewer
than three parts. -/
def extractFieldFromConstraint (constraint : String) : String :=
  let parts := goSplit constraint '_'
  if parts.length < 3 then ""
  else (parts.get? (parts.length - 2)).getD ""

/-- `errors.WrapDBError`: nil maps to nil; `sql.ErrNoRows` to
`ErrNotFound`; a unique violation (code 23505) to a `DB_DUPLICATE` 409
error with field/constraint details; a foreign-key violation (23503) to a
`DB_EXECUTION` 400; anything else to a generic `DB_EXECUTION` 500. -/
def WrapDBError : Option DBErr → Option AppError
  | none => none
  | some .noRows => some ErrNotFound
  | some (.pq code constraint) =>
    if code = "23505" then
      some ((wrap "DB_DUPLICATE" "Duplicate entry" 409).withDetails
        (.strMap [("constraint", constraint),
                  ("field", extractFieldFromConstraint constraint)]))
    else if code = "23503" then
      some (wrap "DB_EXECUTION" "Referenced resource not found" 400)
    else
      some (wrap "DB_EXECUTION" "Database operation failed" 500)
  | some .otherDB => some (wrap "DB_EXECUTION" "Database operation failed" 500)

/-- `unicode.IsUpper` on the ASCII range (the character classes the
policy and the claims exercise are ASCII; the full Unicode tables are the
Go runtime collaborator). -/
def goIsUpper (c : Char) : Bool :=
  65 ≤ c.toNat && c.toNat ≤ 90

/-- `unicode.IsLower` on the ASCII range. -/
def goIsLower (c : Char) : Bool :=
  97 ≤ c.toNat && c.toNat ≤ 122

/-- `unicode.IsDigit` on the ASCII range. -/
def goIsDigit (c : Char) : Bool :=
  48 ≤ c.toNat && c.toNat ≤ 57

/-- `unicode.IsPunct(c) || unicode.IsSymbol(c)` on the ASCII range: the
punctuation and symbol categories together cover exactly the printable
ASCII characters that are not letters, digits, or the space. -/
def goIsSymbolOrPunct (c : Char) : Bool :=
  33 ≤ c.toNat && c.toNat ≤ 126 &&
    !(goIsUpper c || goIsLower c || goIsDigit c)

/-- The four accumulator flags of `validPassword`. -/
structure PwClasses where
  hasUpper : Bool
  hasLower : Bool
  hasDigit : Bool
  hasSymbol : Bool
  deriving DecidableEq, Repr

/-- One iteration of the `validPassword` loop: the `switch` marks the
first matching class of the character. -/
def pwStep (st : PwClasses) (c : Char) : PwClasses :=
  if goIsUpper c then { st with hasUpper := true }
  else if goIsLower c then { st with hasLower := true }
  else if goIsDigit c then { st with hasDigit := true }
  else if goIsSymbolOrPunct c then { st with hasSymbol := true }
  else st

/-- The flag state after scanning the whole password. -/
def passwordClasses (password : String) : PwClasses :=
  password.toList.foldl pwStep ⟨false, false, false, false⟩

/-- `handlers.validPassword`: true iff the password contains at least one
uppercase letter, one lowercase letter, one digit, and one symbol or
punctuation character.  A single boolean: the function does not report
which classes are missing. -/
def validPassword (password : String) : Bool :=
  let r := passwordClasses password
  r.hasUpper && r.hasLower && r.hasDigit && r.hasSymbol

/-- A stored credential record as `GetUserByEmail` returns it. -/
structure User where
  email : String
  password : String
  name : String
  deriving DecidableEq, Repr

/-- `handlers.LoginInput`. -/
structure LoginInput where
  email : String
  password : String
  deriving DecidableEq, Repr

/-- `handlers.SignupInput`. -/
structure SignupInput where
  email : String
  password : String
  name : String
  deriving DecidableEq, Repr

/-- Result of `c.ShouldBindJSON` for login: a bind failure carries the
validator field-error map when the failure was a
`validator.ValidationErrors` (and nothing otherwise), or the bound
input. -/
inductive LoginBind where
  | bindFailed (validationDetails : Option (List (String × String)))
  | bound (input : LoginInput)
  deriving DecidableEq, Repr

/-- External collaborators of `LoginHandler`: the store lookup (any
failure — no-rows or otherwise — is just a non-nil error to the
handler), the bcrypt comparison (true iff the plaintext matches the
stored hash), the signing clock, and whether `SignedString` fails. -/
structure LoginDeps where
  getUserByEmail : String → Except Unit User
  bcryptCompare : String → String → Bool
  now : Int
  signingFails : Bool

/-- A token of the shape `LoginHandler` issues — HS256 under
`SECRET_KEY`, claims `email` and `exp` — with a given expiry instant. -/
def signedTokenWithExp (email : String) (e : Int) : RawToken :=
  { alg := .HS256,
    claims := [("email", .str email), ("exp", .num e)],
    sig := some (.HS256, SECRET_KEY) }

/-- The token `LoginHandler` builds:
`jwt.NewWithClaims(jwt.SigningMethodHS256, jwt.MapClaims{email, exp})`
signed with `SECRET_KEY`, where `exp = time.Now().Add(24h).Unix()`. -/
def issuedToken (email : String) (now : Int) : RawToken :=
  signedTokenWithExp email (now + 24 * 3600)

/-- Observable result of a `LoginHandler` run: either an error pushed to
the gin error list (rendered later by `ErrorHandler`), or the success
effects — the `token` cookie (name, value, max-age seconds), the
`Authorization` response header, and the 200 body. -/
inductive LoginOutcome where
  | errored (e : AppError)
  | success (cookieName : String) (cookieToken : RawToken)
      (cookieMaxAge : Int) (headerToken : RawToken) (resp : GinResponse)
  deriving DecidableEq, Repr

/-- `handlers.LoginHandler` (the revision using the `apperrors`
taxonomy).  Bind failure attaches the validation details to
`ErrInvalidInput`; a failed lookup and a failed bcrypt comparison both
push the same `ErrInvalidCredentials` sentinel; on success an HS256
token with a 24-hour expiry is set as a cookie and header. -/
def loginHandler (d : LoginDeps) (bind : LoginBind) : LoginOutcome :=
  match bind with
  | .bindFailed ve =>
    .errored (ErrInvalidInput.withDetails
      (match ve with
       | some m => .strMap m
       | none => .null))
  | .bound input =>
    match d.getUserByEmail input.email with
    | .error _ => .errored ErrInvalidCredentials
    | .ok user =>
      if d.bcryptCompare user.password input.password then
        if d.signingFails then
          .errored (wrap "INTERNAL_ERROR"
            "Failed to generate authentication token" 500)
        else
          .success "token" (issuedToken input.email d.now) (24 * 3600)
            (issuedToken input.email d.now)
            ⟨200, [("message", .str "login_success")]⟩
      else
        .errored ErrInvalidCredentials

/-- Result of `c.ShouldBindJSON` for signup. -/
inductive SignupBind where
  | validationFailed (details : List (String × String))
  | otherBindErr
  | bound (input : SignupInput)
  deriving DecidableEq, Repr

/-- Result of `mydb.CreateUser` as `SignupHandler` discriminates it (the
returned row is discarded by the handler). -/
inductive CreateUserResult where
  | created
  | pqFailure (code : String) (constraint : String)
  | otherFailure
  deriving DecidableEq, Repr

/-- `handlers.SignupHandler` (the revision using detailed bind errors).
Body key lists are kept in the sorted order `encoding/json` uses. -/
def signupHandler (bind : SignupBind) (hashOK : Bool)
    (create : SignupInput → CreateUserResult) : GinResponse :=
  match bind with
  | .validationFailed details =>
    ⟨400, [("code", .str "400"), ("details", .strMap details),
           ("error", .str "validation_failed")]⟩
  | .otherBindErr =>
    ⟨400, [("code", .str "400"), ("error", .str "invalid_request_payload")]⟩
  | .bound input =>
    if !validPassword input.password then
      ⟨400, [("code", .str "400"),
             ("error", .str "password_complexity_insufficient")]⟩
    else if !hashOK then
      ⟨500, [("code", .str "500"), ("error", .str "internal_server_error")]⟩
    else
      match create input with
      | .created => ⟨200, [("message", .str "user_created")]⟩
      | .pqFailure code _ =>
        if code = "23505" then
          ⟨400, [("code", .str "400"), ("error", .str "email_already_exists")]⟩
        else
          ⟨500, [("code", .str "500"), ("error", .str "internal_server_error")]⟩
      | .otherFailure =>
        ⟨500, [("code", .str "500"), ("error", .str "internal_server_error")]⟩

/-- `jwt.Parse` only ever returns the token it decoded. -/
theorem jwtParse_ok_eq (w : Wire) (kf : Alg → Except String String)
    (now : Int) (t : RawToken) (h : jwtParse w kf now = .ok t) :
    w = some t := by
  unfold jwtParse at h
  split at h
  · simp at h
  · split at h
    · simp at h
    · split at h
      · simp at h
      · split at h <;> simp_all

/-- C1 counterexample: the key-lookup callback of the header-transport
`Auth` revisions (auth.go, the `jwt.Parse` callback that returns
`[]byte(SECRET_KEY), nil` unconditionally) returns the key with no error
for the non-HMAC method RS256, so the claim that the callback passed to
`jwt.Parse` returns an error for every non-HMAC signing method is false
for those cited revisions. -/
theorem c1_counterexample :
    headerKeyfunc .RS256 = .ok SECRET_KEY ∧ Alg.isHMAC .RS256 = false := by
  decide

/-- C1 (amended): in the cookie-transport `Auth` revision, the key
callback returns an error for every non-HMAC signing method and the
middleware rejects every token that declares a non-HMAC algorithm,
whatever signature it carries; the header-transport revision also
rejects such a token, but through the library failing to verify a
non-HMAC method with a byte key, not through its callback. -/
theorem c1_nonHMAC_rejected (now : Int) (t : RawToken)
    (h : t.alg.isHMAC = false) :
    cookieKeyfunc t.alg = .error "unexpected signing method" ∧
    cookieAuth now (some (some t)) =
      reject ⟨401, [("details", .str "unexpected signing method"),
                    ("error", .str "invalid token")]⟩ ∧
    headerAuth now (some t) =
      .ran (reject ⟨401, [("error", .str "invalid token")]⟩) := by
  refine ⟨?_, ?_, ?_⟩ <;>
    simp [cookieAuth, headerAuth, jwtParse, cookieKeyfunc, headerKeyfunc,
      verifySig, h, ParseErr.msg]

/-- C1 witness: a concrete token declaring RS256 but carrying a valid
HMAC signature under the server key is rejected by both variants, and
the cookie-variant callback errors on it. -/
theorem c1_witness :
    (Alg.isHMAC (RawToken.mk .RS256 [("exp", Jval.num 99)]
        (some (.HS256, "SECRET"))).alg = false) ∧
    (cookieKeyfunc .RS256 = .error "unexpected signing method" ∧
     cookieAuth 0 (some (some (RawToken.mk .RS256 [("exp", Jval.num 99)]
        (some (.HS256, "SECRET"))))) =
       reject ⟨401, [("details", .str "unexpected signing method"),
                     ("error", .str "invalid token")]⟩ ∧
     headerAuth 0 (some (RawToken.mk .RS256 [("exp", Jval.num 99)]
        (some (.HS256, "SECRET")))) =
       .ran (reject ⟨401, [("error", .str "invalid token")]⟩)) :=
  ⟨by decide,
   c1_nonHMAC_rejected 0
     (RawToken.mk .RS256 [("exp", Jval.num 99)] (some (.HS256, "SECRET")))
     (by decide)⟩

/-- C2: a login with an unknown identifier and a login with a known
identifier but failing bcrypt comparison both push the identical
`ErrInvalidCredentials` sentinel, which the `ErrorHandler` renders as one
fixed 401 response, so the two failure causes produce byte-identical
bodies and statuses. -/
theorem c2_login_failures_indistinguishable
    (d : LoginDeps) (i1 i2 : LoginInput) (u : User)
    (h1 : d.getUserByEmail i1.email = .error ())
    (h2 : d.getUserByEmail i2.email = .ok u)
    (h3 : d.bcryptCompare u.password i2.password = false) :
    loginHandler d (.bound i1) = .errored ErrInvalidCredentials ∧
    loginHandler d (.bound i2) = .errored ErrInvalidCredentials ∧
    renderGoError (.app ErrInvalidCredentials) =
      ⟨401, [("details", .null), ("error", .str "AUTH_INVALID"),
             ("message", .str "Invalid credentials")]⟩ := by
  refine ⟨?_, ?_, ?_⟩ <;>
    simp [loginHandler, h1, h2, h3, renderGoError, formatError,
      renderAppError, ErrInvalidCredentials]

/-- C2 witness: concrete store with one record, failing comparison. -/
theorem c2_witness :
    loginHandler
      ⟨fun e => if e = "alice@example.com"
         then .ok ⟨"alice@example.com", "HASH", "Alice"⟩ else .error (),
       fun _ _ => false, 1700000000, false⟩
      (.bound ⟨"nobody@example.com", "Test1234!@#$"⟩) =
      .errored ErrInvalidCredentials ∧
    loginHandler
      ⟨fun e => if e = "alice@example.com"
         then .ok ⟨"alice@example.com", "HASH", "Alice"⟩ else .error (),
       fun _ _ => false, 1700000000, false⟩
      (.bound ⟨"alice@example.com", "WrongPassword1!"⟩) =
      .errored ErrInvalidCredentials ∧
    renderGoError (.app ErrInvalidCredentials) =
      ⟨401, [("details", .null), ("error", .str "AUTH_INVALID"),
             ("message", .str "Invalid credentials")]⟩ :=
  c2_login_failures_indistinguishable
    ⟨fun e => if e = "alice@example.com"
       then .ok ⟨"alice@example.com", "HASH", "Alice"⟩ else .error (),
     fun _ _ => false, 1700000000, false⟩
    ⟨"nobody@example.com", "Test1234!@#$"⟩
    ⟨"alice@example.com", "WrongPassword1!"⟩
    ⟨"alice@example.com", "HASH", "Alice"⟩
    (by decide) (by decide) (by decide)

/-- C3 counterexample: a token whose expiry equals the current instant is
admitted (`c.Next()` runs), although `expiresAt > now` is false there, so
the claim that the middleware admits iff `expiresAt > now` fails at the
boundary instant. -/
theorem c3_counterexample :
    (cookieAuth 86400 (some (some (issuedToken "alice@example.com" 0)))).nextCalled
      = true ∧
    ¬ ((86400 : Int) + 0 > 86400) := by
  decide

/-- C3 (amended): for a well-signed token with expiry `iat + t`, the
cookie-transport middleware admits iff `now ≤ expiresAt` (integer
seconds, no leeway): valid at `iat + t - 1` and still at `iat + t`,
rejected from `iat + t + 1` onward. -/
theorem c3_expiry_boundary (email : String) (iat t now : Int) :
    ((cookieAuth now
        (some (some (signedTokenWithExp email (iat + t))))).nextCalled = true
      ↔ now ≤ iat + t) ∧
    (cookieAuth (iat + t - 1)
        (some (some (signedTokenWithExp email (iat + t))))).nextCalled = true ∧
    (cookieAuth (iat + t)
        (some (some (signedTokenWithExp email (iat + t))))).nextCalled = true ∧
    (cookieAuth (iat + t + 1)
        (some (some (signedTokenWithExp email (iat + t))))).nextCalled = false := by
  have core : ∀ m : Int,
      (cookieAuth m
        (some (some (signedTokenWithExp email (iat + t))))).nextCalled = true
      ↔ m ≤ iat + t := by
    intro m
    by_cases h : m ≤ iat + t
    · simp [cookieAuth, jwtParse, cookieKeyfunc, verifySig, mapClaimsValid,
        signedTokenWithExp, claimLookup, Alg.isHMAC, SECRET_KEY, h,
        not_lt.mpr h]
    · simp [cookieAuth, jwtParse, cookieKeyfunc, verifySig, mapClaimsValid,
        signedTokenWithExp, claimLookup, Alg.isHMAC, SECRET_KEY, h,
        ParseErr.msg, reject]
  refine ⟨core now, (core _).mpr (by omega), (core _).mpr (by omega), ?_⟩
  have h3 := core (iat + t + 1)
  cases hb : (cookieAuth (iat + t + 1)
      (some (some (signedTokenWithExp email (iat + t))))).nextCalled with
  | false => rfl
  | true => exact absurd (h3.mp hb) (by omega)

/-- C3 witness: the boundary instants for a token issued at 0 with a
24-hour ttl. -/
theorem c3_witness :
    (cookieAuth 86399
      (some (some (signedTokenWithExp "alice@example.com" 86400)))).nextCalled
        = true ∧
    (cookieAuth 86401
      (some (some (signedTokenWithExp "alice@example.com" 86400)))).nextCalled
        = false :=
  ⟨(c3_expiry_boundary "alice@example.com" 0 86400 0).2.1,
   (c3_expiry_boundary "alice@example.com" 0 86400 0).2.2.2⟩

/-- C4 counterexample: on a duplicate signup (Postgres unique violation
23505) `SignupHandler` responds HTTP 400 with body code
`email_already_exists` — not the claimed stable code `DB_DUPLICATE` with
status 409.  `WrapDBError` would produce that mapping, but the handler
never calls it (the repository test also expects 400 here). -/
theorem c4_counterexample :
    signupHandler
      (.bound ⟨"duplicate@example.com", "Test1234!@#$", "Duplicate User"⟩)
      true (fun _ => .pqFailure "23505" "users_email_key") =
      ⟨400, [("code", .str "400"), ("error", .str "email_already_exists")]⟩ ∧
    (signupHandler
      (.bound ⟨"duplicate@example.com", "Test1234!@#$", "Duplicate User"⟩)
      true (fun _ => .pqFailure "23505" "users_email_key")).status ≠ 409 := by
  decide

/-- C4 (amended): the unique-constraint rejection is detected inline in
`SignupHandler` (pq code 23505) and mapped to HTTP 400 with body code
`email_already_exists`; the first signup responds 200 `user_created`
without echoing the created record; the unused `WrapDBError` helper is
what maps a unique violation to `DB_DUPLICATE` with status 409. -/
theorem c4_duplicate_handling (input : SignupInput) (constraint : String)
    (hpw : validPassword input.password = true) :
    signupHandler (.bound input) true
        (fun _ => .pqFailure "23505" constraint) =
      ⟨400, [("code", .str "400"), ("error", .str "email_already_exists")]⟩ ∧
    signupHandler (.bound input) true (fun _ => .created) =
      ⟨200, [("message", .str "user_created")]⟩ ∧
    WrapDBError (some (.pq "23505" constraint)) =
      some ⟨"DB_DUPLICATE", "Duplicate entry",
        some (.strMap [("constraint", constraint),
                       ("field", extractFieldFromConstraint constraint)]),
        409⟩ := by
  refine ⟨?_, ?_, ?_⟩ <;>
    simp [signupHandler, hpw, WrapDBError, wrap, AppError.withDetails]

/-- C4 witness. -/
theorem c4_witness :
    validPassword "Test1234!@#$" = true ∧
    (signupHandler
        (.bound ⟨"duplicate@example.com", "Test1234!@#$", "Duplicate User"⟩)
        true (fun _ => .pqFailure "23505" "users_email_key") =
      ⟨400, [("code", .str "400"), ("error", .str "email_already_exists")]⟩ ∧
    signupHandler
        (.bound ⟨"duplicate@example.com", "Test1234!@#$", "Duplicate User"⟩)
        true (fun _ => .created) =
      ⟨200, [("message", .str "user_created")]⟩ ∧
    WrapDBError (some (.pq "23505" "users_email_key")) =
      some ⟨"DB_DUPLICATE", "Duplicate entry",
        some (.strMap [("constraint", "users_email_key"),
                       ("field", "email")]), 409⟩) :=
  ⟨by decide,
   c4_duplicate_handling
     ⟨"duplicate@example.com", "Test1234!@#$", "Duplicate User"⟩
     "users_email_key" (by decide)⟩

/-- C5: rejection is unconditionally terminal and admission always
reaches the next stage.  For the cookie-transport middleware: a response
is written exactly when the run aborted, and `c.Next()` runs exactly when
it did not; the header-transport revision with the username check
satisfies the same dichotomy on every non-panicking run. -/
theorem c5_reject_terminal (now : Int) (cookie : Option Wire) (wire : Wire) :
    ((cookieAuth now cookie).nextCalled = !(cookieAuth now cookie).aborted) ∧
    ((cookieAuth now cookie).written.isSome = (cookieAuth now cookie).aborted) ∧
    (∀ o, headerAuthUser now wire = .ran o →
      o.nextCalled = !o.aborted ∧ o.written.isSome = o.aborted) := by
  refine ⟨?_, ?_, ?_⟩
  · unfold cookieAuth
    split <;> [simp [reject]; (split <;> [simp [reject]; (split <;> [skip; simp [reject]]; split <;> simp [reject])])]
  · unfold cookieAuth
    split <;> [simp [reject]; (split <;> [simp [reject]; (split <;> [skip; simp [reject]]; split <;> simp [reject])])]
  · intro o ho
    unfold headerAuthUser at ho
    repeat' split at ho
    all_goals simp_all [reject]
    all_goals (subst ho; exact ⟨rfl, rfl⟩)

/-- C5 witness: a request with no cookie is rejected terminally, and a
header request with an undecodable token runs the same dichotomy. -/
theorem c5_witness :
    ((cookieAuth 0 none).nextCalled = !(cookieAuth 0 none).aborted ∧
     (cookieAuth 0 none).written.isSome = (cookieAuth 0 none).aborted) ∧
    ((reject ⟨401, [("error", Jval.str "invalid token")]⟩).nextCalled =
        !(reject ⟨401, [("error", Jval.str "invalid token")]⟩).aborted ∧
     (reject ⟨401, [("error", Jval.str "invalid token")]⟩).written.isSome =
        (reject ⟨401, [("error", Jval.str "invalid token")]⟩).aborted) :=
  ⟨⟨(c5_reject_terminal 0 none none).1, (c5_reject_terminal 0 none none).2.1⟩,
   (c5_reject_terminal 0 none none).2.2
     (reject ⟨401, [("error", Jval.str "invalid token")]⟩) (by decide)⟩

/-- C6 counterexample: two passwords breaking different rule sets (one
lacks uppercase, digit and symbol; the other lacks lowercase, digit and
symbol) receive the identical fixed `password_complexity_insufficient`
body, which names no individual rule — so the validation cannot be
reporting every broken rule, and on `"password"`-class inputs no
missing-uppercase/missing-digit/missing-symbol reasons appear. -/
theorem c6_counterexample :
    passwordClasses "onlylowercase" ≠ passwordClasses "ONLYUPPERCASE" ∧
    signupHandler (.bound ⟨"a@example.com", "onlylowercase", "A"⟩) true
        (fun _ => .created) =
      signupHandler (.bound ⟨"a@example.com", "ONLYUPPERCASE", "A"⟩) true
        (fun _ => .created) ∧
    signupHandler (.bound ⟨"a@example.com", "onlylowercase", "A"⟩) true
        (fun _ => .created) =
      ⟨400, [("code", .str "400"),
             ("error", .str "password_complexity_insufficient")]⟩ := by
  decide

/-- C6 (amended): the policy check is the single boolean
`validPassword`; every policy breach yields the one generic 400
`password_complexity_insufficient` response with no per-rule reasons.
`"password"` fails the policy (its class flags show uppercase, digit and
symbol all missing) and `"Test1234!@#$"` passes it. -/
theorem c6_policy_boolean (input : SignupInput)
    (create : SignupInput → CreateUserResult)
    (h : validPassword input.password = false) :
    signupHandler (.bound input) true create =
      ⟨400, [("code", .str "400"),
             ("error", .str "password_complexity_insufficient")]⟩ ∧
    passwordClasses "password" = ⟨false, true, false, false⟩ ∧
    validPassword "password" = false ∧
    validPassword "Test1234!@#$" = true := by
  refine ⟨by simp [signupHandler, h], by decide, by decide, by decide⟩

/-- C6 witness. -/
theorem c6_witness :
    validPassword "onlylowercase" = false ∧
    (signupHandler (.bound ⟨"a@example.com", "onlylowercase", "A"⟩) true
        (fun _ => .created) =
      ⟨400, [("code", .str "400"),
             ("error", .str "password_complexity_insufficient")]⟩ ∧
    passwordClasses "password" = ⟨false, true, false, false⟩ ∧
    validPassword "password" = false ∧
    validPassword "Test1234!@#$" = true) :=
  ⟨by decide,
   c6_policy_boolean ⟨"a@example.com", "onlylowercase", "A"⟩
     (fun _ => .created) (by decide)⟩

/-- C7 counterexample: a request with no token and a request with an
expired token are both rejected with status 401 but with different
bodies — and the expired-token body carries the parse error detail to the
client — so the rejection responses are not of identical shape and do
reveal which check failed. -/
theorem c7_counterexample :
    (cookieAuth 10 none).written =
      some ⟨401, [("error", .str "token not found in cookie")]⟩ ∧
    (cookieAuth 10
        (some (some (signedTokenWithExp "alice@example.com" 5)))).written =
      some ⟨401, [("details", .str "Token is expired"),
                  ("error", .str "invalid token")]⟩ ∧
    (cookieAuth 10 none).written ≠
      (cookieAuth 10
        (some (some (signedTokenWithExp "alice@example.com" 5)))).written := by
  decide

/-- C7 (amended): every rejection of the cookie-transport middleware has
the same HTTP status 401, but the bodies differ by failure cause and the
parse-failure branch includes the error detail in the client response. -/
theorem c7_uniform_status (now : Int) (cookie : Option Wire)
    (r : GinResponse) (h : (cookieAuth now cookie).written = some r) :
    r.status = 401 := by
  unfold cookieAuth at h
  repeat' split at h
  all_goals simp_all [reject]
  all_goals (subst h; rfl)

/-- C7 witness. -/
theorem c7_witness :
    (401 : Nat) = 401 ∧
    (⟨401, [("error", Jval.str "token not found in cookie")]⟩ :
      GinResponse).status = 401 :=
  ⟨rfl, c7_uniform_status 0 none
    ⟨401, [("error", Jval.str "token not found in cookie")]⟩ (by decide)⟩

/-- C8 counterexample: a token issued at instant 1700000000 has exactly
the two payload fields `email` and `exp`, and no field of its payload
holds the issuance instant — so the issued payload does not contain
`issuedAt` as the claim requires. -/
theorem c8_counterexample :
    (issuedToken "alice@example.com" 1700000000).claims =
      [("email", .str "alice@example.com"), ("exp", .num 1700086400)] ∧
    ∀ kv ∈ (issuedToken "alice@example.com" 1700000000).claims,
      kv.2 ≠ Jval.num 1700000000 := by
  decide

/-- C8 (amended): every successful login issues a token whose payload
contains the subject identifier (`email`) and
`exp = signing instant + 24h` (ttl 24 hours), signed HS256 under the
single symmetric `SECRET_KEY`; no `iat`/issuedAt field is included. -/
theorem c8_token_payload (d : LoginDeps) (input : LoginInput) (u : User)
    (h1 : d.getUserByEmail input.email = .ok u)
    (h2 : d.bcryptCompare u.password input.password = true)
    (h3 : d.signingFails = false) :
    loginHandler d (.bound input) =
      .success "token" (issuedToken input.email d.now) (24 * 3600)
        (issuedToken input.email d.now)
        ⟨200, [("message", .str "login_success")]⟩ ∧
    claimLookup (issuedToken input.email d.now).claims "email" =
      some (.str input.email) ∧
    claimLookup (issuedToken input.email d.now).claims "exp" =
      some (.num (d.now + 24 * 3600)) ∧
    claimLookup (issuedToken input.email d.now).claims "iat" = none ∧
    (issuedToken input.email d.now).alg = .HS256 ∧
    (issuedToken input.email d.now).sig = some (.HS256, SECRET_KEY) := by
  refine ⟨?_, ?_, ?_, ?_, rfl, rfl⟩ <;>
    simp [loginHandler, h1, h2, h3, issuedToken, signedTokenWithExp,
      claimLookup]

/-- C8 witness. -/
theorem c8_witness :
    ((⟨fun _ => .ok ⟨"alice@example.com", "HASH", "Alice"⟩,
        fun _ _ => true, 1700000000, false⟩ :
        LoginDeps).getUserByEmail "alice@example.com" =
      .ok ⟨"alice@example.com", "HASH", "Alice"⟩) ∧
    (loginHandler
        ⟨fun _ => .ok ⟨"alice@example.com", "HASH", "Alice"⟩,
         fun _ _ => true, 1700000000, false⟩
        (.bound ⟨"alice@example.com", "Test1234!@#$"⟩) =
      .success "token" (issuedToken "alice@example.com" 1700000000)
        (24 * 3600) (issuedToken "alice@example.com" 1700000000)
        ⟨200, [("message", .str "login_success")]⟩ ∧
    claimLookup (issuedToken "alice@example.com" 1700000000).claims "email" =
      some (.str "alice@example.com") ∧
    claimLookup (issuedToken "alice@example.com" 1700000000).claims "exp" =
      some (.num 1700086400) ∧
    claimLookup (issuedToken "alice@example.com" 1700000000).claims "iat" =
      none ∧
    (issuedToken "alice@example.com" 1700000000).alg = .HS256 ∧
    (issuedToken "alice@example.com" 1700000000).sig =
      some (.HS256, SECRET_KEY)) :=
  ⟨by decide,
   c8_token_payload
     ⟨fun _ => .ok ⟨"alice@example.com", "HASH", "Alice"⟩,
      fun _ _ => true, 1700000000, false⟩
     ⟨"alice@example.com", "Test1234!@#$"⟩
     ⟨"alice@example.com", "HASH", "Alice"⟩
     (by decide) (by decide) (by decide)⟩

/-- C9: the code evaluated at the failing input.  The spec requires every
`AppError` to be immutable after creation, but `WithDetails` assigns the
receiver in place, and the `LoginHandler` bind-failure path applies it to
the package-level shared sentinel `ErrInvalidInput`: after one request
attaches details, the shared cell no longer equals its original value,
it now carries that request's details, and any other request that
renders the sentinel (as `ErrorHandler` does via `FormatError`) observes
them. -/
theorem c9_sentinel_mutation :
    ErrInvalidInput.details = none ∧
    (loginBindFailureGo ErrInvalidInput
        (.strMap [("email", "email_required")])).1 ≠ ErrInvalidInput ∧
    (loginBindFailureGo ErrInvalidInput
        (.strMap [("email", "email_required")])).1.details =
      some (.strMap [("email", "email_required")]) ∧
    renderAppError (loginBindFailureGo ErrInvalidInput
        (.strMap [("email", "email_required")])).1 ≠
      renderAppError ErrInvalidInput := by
  decide

/-- C10: the header-transport `Auth` reads `claims["exp"].(float64)`
without the `ok` guard.  A token correctly signed under the server key
whose claims lack an `exp` entry — or carry a non-numeric one — passes
the library parse (a missing or non-numeric `exp` validates) and then
panics at the assertion instead of producing an unauthenticated
response; any request whose token carries a numeric `exp` (and any
undecodable request) runs to completion. -/
theorem c10_exp_assertion_panic (now : Int) (t : RawToken) (e : Int)
    (h : claimLookup t.claims "exp" = some (.num e)) :
    headerAuth 0 (some ⟨.HS256, [("email", .str "alice@example.com")],
        some (.HS256, SECRET_KEY)⟩) = .panicked ∧
    headerAuth 0 (some ⟨.HS256, [("exp", .str "tomorrow")],
        some (.HS256, SECRET_KEY)⟩) = .panicked ∧
    headerAuth now (some t) ≠ .panicked ∧
    headerAuth now none ≠ .panicked := by
  refine ⟨by decide, by decide, ?_, by simp [headerAuth, jwtParse]⟩
  unfold headerAuth
  split
  · simp
  · rename_i res tok hok
    have htok : tok = t := by
      simpa using (jwtParse_ok_eq _ _ _ _ hok).symm
    subst htok
    simp only [h]
    split <;> simp

/-- C10 witness: a numeric-`exp` token never panics. -/
theorem c10_witness :
    claimLookup (RawToken.mk .HS256 [("exp", Jval.num 86400)]
        (some (.HS256, "SECRET"))).claims "exp" = some (.num 86400) ∧
    (headerAuth 0 (some ⟨.HS256, [("email", .str "alice@example.com")],
        some (.HS256, SECRET_KEY)⟩) = .panicked ∧
     headerAuth 0 (some ⟨.HS256, [("exp", .str "tomorrow")],
        some (.HS256, SECRET_KEY)⟩) = .panicked ∧
     headerAuth 42 (some (RawToken.mk .HS256 [("exp", Jval.num 86400)]
        (some (.HS256, "SECRET")))) ≠ .panicked ∧
     headerAuth 42 none ≠ .panicked) :=
  ⟨by decide,
   c10_exp_assertion_panic 42
     (RawToken.mk .HS256 [("exp", Jval.num 86400)] (some (.HS256, "SECRET")))
     86400 (by decide)⟩

end MyDeer
